import Mathlib

/-!
Shallow embedding of the Statistics Access Gateway of the dodo telegram-bot
repository: the remote-API dispatcher and credential resolvers of
`src/services/api.py`, and the unit-selection resolver of
`src/keyboards/markups.py`.

The remote side of an HTTP exchange is modelled by `RawResponse`: either a
transport failure (an `httpx.HTTPError` being raised by the client), or a
response carrying a status code and a body, where the body is `some j` when
it is valid JSON decoding to `j` and `none` when `response.json()` would
raise `json.JSONDecodeError`.  Python exceptions are modelled by the
`Except` monad over `PyError`, which has one case per exception class the
code can raise, including the exception classes the code does NOT catch
(`pydantic.ValidationError`, an uncaught `httpx.HTTPError`, `KeyError`,
`TypeError`, `json.JSONDecodeError`): faithfulness requires distinguishing
what propagates uncaught from the typed errors of `utils.exceptions`.

Pydantic deserialization (`Model.parse_obj` / `parse_obj_as`) is
all-or-nothing: it returns a fully validated value or raises
`ValidationError`.  The statistics payload models live in `models.py`,
which is not part of the analysed sources, so each statistics operation is
parameterized by the parse function of its declared payload type
(`Json → Option α`); everything the dispatcher itself does — transport,
status handling, error translation — is embedded concretely from the
source.
-/

/-- JSON values, the result of `json.loads` on a response body. -/
inductive Json where
  | null : Json
  | bool : Bool → Json
  | num : Int → Json
  | str : String → Json
  | arr : List Json → Json
  | obj : List (String × Json) → Json

/-- Python dictionary lookup `d[key]` on a JSON object's field list:
the first binding of the key, `none` when the key is absent. -/
def Json.getKey (key : String) : List (String × Json) → Option Json
  | [] => none
  | (k, v) :: rest => if k = key then some v else Json.getKey key rest

/-- Exception classes the gateway code can raise.  The first four are the
typed errors of `utils.exceptions`; the remaining five model standard
exceptions that propagate uncaught through the gateway code. -/
inductive PyError where
  | DodoAPIError : PyError
  | NoTokenError : PyError
  | NoCookiesError : PyError
  | DatabaseAPIError : PyError
  | ValidationError : PyError
  | TransportError : PyError
  | JSONDecodeError : PyError
  | KeyError : PyError
  | TypeError : PyError
deriving DecidableEq

/-- What the remote service did for one exchange: the transport raised
`httpx.HTTPError`, or a response arrived with a status code and a body
(`some j` when the body is valid JSON, `none` when it is not). -/
inductive RawResponse where
  | transportError : RawResponse
  | response : Nat → Option Json → RawResponse

/-- `httpx.Response.is_success`: status code in the 2xx range. -/
def is_success (status : Nat) : Bool := decide (200 ≤ status ∧ status ≤ 299)

/-- `request_to_api` of `src/services/api.py`: performs the exchange and
returns `response.json()`; `httpx.HTTPError` and `json.JSONDecodeError`
are caught and re-raised as `DodoAPIError`.  The status code is never
inspected. -/
def request_to_api : RawResponse → Except PyError Json
  | RawResponse.transportError => Except.error PyError.DodoAPIError
  | RawResponse.response _ none => Except.error PyError.DodoAPIError
  | RawResponse.response _ (some j) => Except.ok j

/-- The shared shape of every statistics operation: call `request_to_api`,
then deserialize the JSON into the declared payload type with pydantic.
A pydantic failure (`parse j = none`) raises `ValidationError`, which no
statistics operation catches. -/
def request_then_parse (parse : Json → Option α) (resp : RawResponse) :
    Except PyError α :=
  match request_to_api resp with
  | Except.error e => Except.error e
  | Except.ok j =>
    match parse j with
    | some v => Except.ok v
    | none => Except.error PyError.ValidationError

/-- `RequestByCookiesAndUnitIds.request`: the generic Shape-A operation,
parameterized by the parse function of its `response_model`.  The body it
sends does not influence the response handling, which is what is embedded
here. -/
def RequestByCookiesAndUnitIds.request (parse : Json → Option α)
    (resp : RawResponse) : Except PyError α :=
  request_then_parse parse resp

/-- `parse_obj_as(list[M], j)`: succeeds exactly when `j` is a JSON array
every element of which parses as `M`, producing the list of parsed
elements. -/
def parse_obj_as_list (parseElem : Json → Option α) : Json → Option (List α)
  | Json.arr xs => xs.mapM parseElem
  | _ => none

/-- `get_revenue_statistics`: GET `/v1/statistics/revenue`, body parsed by
`RevenueStatistics.parse_obj` (payload model abstracted as `parse`). -/
def get_revenue_statistics (parse : Json → Option α) (resp : RawResponse) :
    Except PyError α :=
  request_then_parse parse resp

/-- `get_being_late_certificates_statistics`: POST
`/v1/statistics/being-late-certificates`, body parsed by `parse_obj_as`
into a list of `UnitBeingLateCertificatesTodayAndWeekBefore` (element
model abstracted as `parseElem`). -/
def get_being_late_certificates_statistics (parseElem : Json → Option α)
    (resp : RawResponse) : Except PyError (List α) :=
  request_then_parse (parse_obj_as_list parseElem) resp

/-- `get_bonus_system_statistics`: POST `/v1/statistics/bonus-system`,
body parsed into a list of `UnitBonusSystem`. -/
def get_bonus_system_statistics (parseElem : Json → Option α)
    (resp : RawResponse) : Except PyError (List α) :=
  request_then_parse (parse_obj_as_list parseElem) resp

/-- Response handling of `get_delivery_speed_statistics`: GET
`/v2/statistics/delivery/speed`, body parsed into a list of
`UnitDeliverySpeed`. -/
def get_delivery_speed_statistics (parseElem : Json → Option α)
    (resp : RawResponse) : Except PyError (List α) :=
  request_then_parse (parse_obj_as_list parseElem) resp

/-- Response handling of `get_orders_handover_time_statistics`: GET
`/v2/statistics/production/handover-time`, body parsed into a list of
`UnitOrdersHandoverTime`. -/
def get_orders_handover_time_statistics (parseElem : Json → Option α)
    (resp : RawResponse) : Except PyError (List α) :=
  request_then_parse (parse_obj_as_list parseElem) resp

/-- `get_access_token` of `src/services/api.py`.  The `client.get` call can
raise `httpx.HTTPError`, which this function does not catch
(`TransportError`).  On a success status it evaluates
`response.json()['access_token']`: a non-JSON body raises
`json.JSONDecodeError`, a JSON body that is not an object raises
`TypeError`, an object without the key raises `KeyError`, and otherwise
the value stored under the key is returned unvalidated.  On 404 it raises
`NoTokenError`; on any other non-success status, `DatabaseAPIError`. -/
def get_access_token : RawResponse → Except PyError Json
  | RawResponse.transportError => Except.error PyError.TransportError
  | RawResponse.response status body =>
    if is_success status then
      match body with
      | none => Except.error PyError.JSONDecodeError
      | some (Json.obj fields) =>
        match Json.getKey "access_token" fields with
        | some v => Except.ok v
        | none => Except.error PyError.KeyError
      | some _ => Except.error PyError.TypeError
    else if status = 404 then Except.error PyError.NoTokenError
    else Except.error PyError.DatabaseAPIError

/-- `get_cookies` of `src/services/api.py`.  Same status handling as
`get_access_token` with `NoCookiesError` in place of `NoTokenError`, but
on a success status the decoded JSON body is returned as-is, with no
shape validation at all. -/
def get_cookies : RawResponse → Except PyError Json
  | RawResponse.transportError => Except.error PyError.TransportError
  | RawResponse.response status body =>
    if is_success status then
      match body with
      | none => Except.error PyError.JSONDecodeError
      | some j => Except.ok j
    else if status = 404 then Except.error PyError.NoCookiesError
    else Except.error PyError.DatabaseAPIError

/-- `models.Unit`: a restaurant unit, integer id and name
(Python ints are unbounded, hence `Int`). -/
structure models.Unit where
  id : Int
  name : String
deriving DecidableEq

/-- Python truthiness-existence `any(s)` over a set of ints: true exactly
when the set holds a truthy (nonzero) element. -/
def pyAnyInt (s : Finset Int) : Bool := decide (∃ x ∈ s, x ≠ 0)

/-- A `SwitchUnitStatusButton(report_type, region, unit.id, unit.name,
is_unit_enabled)` as inserted by `UnitsMarkup.__add_unit_operations`. -/
structure SwitchUnitStatusButton where
  report_type : String
  region : String
  unit_id : Int
  unit_name : String
  is_unit_enabled : Bool
deriving DecidableEq

/-- The observable output of `UnitsMarkup`: the ordered per-unit button
entries and, for the batch row, whether the `EnableAllUnitsByRegionButton`
and the `DisableAllUnitsByRegionButton` are present. -/
structure UnitsMarkup where
  unit_buttons : List SwitchUnitStatusButton
  has_enable_all_units_button : Bool
  has_disable_all_units_button : Bool
deriving DecidableEq

/-- `UnitsMarkup.__all_unit_ids`: the set comprehension projecting
`all_units` to ids. -/
def UnitsMarkup.all_unit_ids (all_units : List models.Unit) : Finset Int :=
  (all_units.map models.Unit.id).toFinset

/-- `UnitsMarkup.__disabled_unit_ids`: `all_unit_ids - enabled_unit_ids`. -/
def UnitsMarkup.disabled_unit_ids (all_units : List models.Unit)
    (enabled_unit_ids : Finset Int) : Finset Int :=
  UnitsMarkup.all_unit_ids all_units \ enabled_unit_ids

/-- `UnitsMarkup.__add_unit_operations`: one button per unit of
`all_units`, in order, enabled exactly when `unit.id in
self.__enabled_unit_ids`. -/
def UnitsMarkup.add_unit_operations (report_type region : String)
    (enabled_unit_ids : Finset Int) (all_units : List models.Unit) :
    List SwitchUnitStatusButton :=
  all_units.map fun unit =>
    { report_type := report_type
      region := region
      unit_id := unit.id
      unit_name := unit.name
      is_unit_enabled := decide (unit.id ∈ enabled_unit_ids) }

/-- `UnitsMarkup.__init__`: build the per-unit buttons, then the batch
row.  `__add_batch_operations` appends the enable-all button when
`any(self.__disabled_unit_ids)` and the disable-all button when
`any(self.__enabled_unit_ids)` — Python `any`, i.e. truthiness. -/
def UnitsMarkup.make (report_type region : String)
    (enabled_unit_ids : Finset Int) (all_units : List models.Unit) :
    UnitsMarkup :=
  { unit_buttons :=
      UnitsMarkup.add_unit_operations report_type region enabled_unit_ids
        all_units
    has_enable_all_units_button :=
      pyAnyInt (UnitsMarkup.disabled_unit_ids all_units enabled_unit_ids)
    has_disable_all_units_button := pyAnyInt enabled_unit_ids }

/-- One value of an HTTP query-parameter mapping: a string or a list of
strings. -/
inductive QueryValue where
  | str : String → QueryValue
  | strList : List String → QueryValue
deriving DecidableEq

/-- The request a statistics operation hands to `request_to_api`: path,
method, query parameters, JSON body (absent for GET operations). -/
structure ApiRequest where
  url : String
  method : String
  params : List (String × QueryValue)
deriving DecidableEq

/-- One hexadecimal digit, lowercase, as Python `hex` formatting emits. -/
def hexDigitChar (n : Nat) : Char :=
  if n < 10 then Char.ofNat (48 + n) else Char.ofNat (87 + n)

/-- The numeric value of a hexadecimal digit character. -/
def hexCharVal (c : Char) : Nat :=
  if 97 ≤ c.toNat then c.toNat - 87 else c.toNat - 48

/-- The `k` low-order hexadecimal digits of `v`, most significant first. -/
def hexDigitsOf : Nat → Nat → List Char
  | 0, _ => []
  | k + 1, v => hexDigitsOf k (v / 16) ++ [hexDigitChar (v % 16)]

/-- `uuid.UUID.hex`: the UUID's 128-bit integer as exactly 32 lowercase
hexadecimal digits, zero-padded, no separators.  A UUID is modelled by
its integer value (`Nat`, below `2 ^ 128`). -/
def uuidHex (n : Nat) : String := String.mk (hexDigitsOf 32 n)

/-- The numeric value a hexadecimal string denotes. -/
def hexValue (s : String) : Nat :=
  s.toList.foldl (fun a c => 16 * a + hexCharVal c) 0

/-- Modelled from the spec: `models.SalesChannel` (module `models` is not
among the analysed sources).  The spec's endpoint table fixes the filter
to `sales_channels=["dine_in"]`, so `SalesChannel.DINE_IN.value` is the
string `dine_in`. -/
def SalesChannel.DINE_IN_value : String := "dine_in"

/-- The request issued by `get_delivery_speed_statistics`: GET
`/v2/statistics/delivery/speed` with the token and the hex-encoded unit
UUIDs as query parameters, and nothing else. -/
def get_delivery_speed_statistics_request (token : String)
    (unit_uuids : List Nat) : ApiRequest :=
  { url := "/v2/statistics/delivery/speed"
    method := "GET"
    params := [("token", QueryValue.str token),
               ("unit_uuids", QueryValue.strList (unit_uuids.map uuidHex))] }

/-- The request issued by `get_orders_handover_time_statistics`: GET
`/v2/statistics/production/handover-time` with the token, the hex-encoded
unit UUIDs, and the fixed sales-channel filter as query parameters. -/
def get_orders_handover_time_statistics_request (token : String)
    (unit_uuids : List Nat) : ApiRequest :=
  { url := "/v2/statistics/production/handover-time"
    method := "GET"
    params := [("token", QueryValue.str token),
               ("unit_uuids", QueryValue.strList (unit_uuids.map uuidHex)),
               ("sales_channels",
                QueryValue.strList [SalesChannel.DINE_IN_value])] }

theorem hexCharVal_hexDigitChar : ∀ d, d < 16 → hexCharVal (hexDigitChar d) = d := by
  decide

theorem hexDigitsOf_length : ∀ k v, (hexDigitsOf k v).length = k := by
  intro k
  induction k with
  | zero => intro v; rfl
  | succ k ih => intro v; simp [hexDigitsOf, ih]

theorem foldl_hexDigitsOf (k : Nat) : ∀ v a,
    List.foldl (fun a c => 16 * a + hexCharVal c) a (hexDigitsOf k v)
      = a * 16 ^ k + v % 16 ^ k := by
  induction k with
  | zero => intro v a; simp [hexDigitsOf, Nat.mod_one]
  | succ k ih =>
    intro v a
    rw [hexDigitsOf, List.foldl_append, ih]
    simp only [List.foldl_cons, List.foldl_nil]
    rw [hexCharVal_hexDigitChar (v % 16) (Nat.mod_lt v (by norm_num))]
    have hm : v % 16 ^ (k + 1) = v % 16 + 16 * (v / 16 % 16 ^ k) := by
      rw [pow_succ, mul_comm (16 ^ k) 16, Nat.mod_mul]
    rw [hm, pow_succ]
    ring

theorem hexValue_uuidHex (n : Nat) (hn : n < 16 ^ 32) : hexValue (uuidHex n) = n := by
  show List.foldl _ 0 (hexDigitsOf 32 n) = n
  rw [foldl_hexDigitsOf 32 n 0, Nat.mod_eq_of_lt hn]
  ring

/-- C6: for every `all_units` sequence and `enabled_unit_ids` set, the
resolver's `disabled_unit_ids` equals the ids projected from `all_units`
minus `enabled_unit_ids`; it is disjoint from `enabled_unit_ids`, and its
union with `enabled_unit_ids ∩ all_unit_ids` is `all_unit_ids` (partition
property). -/
theorem C6_disabled_partition (all_units : List models.Unit)
    (enabled_unit_ids : Finset Int) :
    UnitsMarkup.disabled_unit_ids all_units enabled_unit_ids
        = (all_units.map models.Unit.id).toFinset \ enabled_unit_ids
    ∧ Disjoint (UnitsMarkup.disabled_unit_ids all_units enabled_unit_ids)
        enabled_unit_ids
    ∧ UnitsMarkup.disabled_unit_ids all_units enabled_unit_ids
          ∪ enabled_unit_ids ∩ UnitsMarkup.all_unit_ids all_units
        = UnitsMarkup.all_unit_ids all_units := by
  refine ⟨rfl, Finset.sdiff_disjoint, ?_⟩
  rw [UnitsMarkup.disabled_unit_ids, Finset.inter_comm,
    Finset.sdiff_union_inter]

/-- C7: the unit-selection resolver is a deterministic function of
`(report_type, region, enabled_unit_ids, all_units)`: identical inputs
yield identical partitions, tags and flags.  (Its embedding as a total
Lean function also witnesses that it performs no I/O.) -/
theorem C7_resolver_deterministic (rt₁ rt₂ rg₁ rg₂ : String)
    (e₁ e₂ : Finset Int) (u₁ u₂ : List models.Unit)
    (hrt : rt₁ = rt₂) (hrg : rg₁ = rg₂) (he : e₁ = e₂) (hu : u₁ = u₂) :
    UnitsMarkup.make rt₁ rg₁ e₁ u₁ = UnitsMarkup.make rt₂ rg₂ e₂ u₂ := by
  subst hrt; subst hrg; subst he; subst hu; rfl

/-- C7 witness at a concrete input. -/
theorem C7_resolver_deterministic_witness :
    UnitsMarkup.make "STATISTICS" "moscow" {1, 2} [⟨1, "A"⟩, ⟨2, "B"⟩]
      = UnitsMarkup.make "STATISTICS" "moscow" {1, 2} [⟨1, "A"⟩, ⟨2, "B"⟩] :=
  C7_resolver_deterministic _ _ _ _ _ _ _ _ rfl rfl rfl rfl

/-- C10: the partition has exactly one entry per element of `all_units`,
in the same order (an id repeated in two elements yields two entries), and
each entry carries its unit's id and name and is tagged enabled exactly
when that id is a member of `enabled_unit_ids`, tested per entry. -/
theorem C10_one_button_per_unit (report_type region : String)
    (enabled_unit_ids : Finset Int) (all_units : List models.Unit)
    (i : Nat) (unit : models.Unit) (hi : all_units[i]? = some unit) :
    (UnitsMarkup.make report_type region enabled_unit_ids
        all_units).unit_buttons.length = all_units.length
    ∧ (UnitsMarkup.make report_type region enabled_unit_ids
        all_units).unit_buttons[i]?
        = some { report_type := report_type, region := region,
                 unit_id := unit.id, unit_name := unit.name,
                 is_unit_enabled := decide (unit.id ∈ enabled_unit_ids) } := by
  constructor
  · simp [UnitsMarkup.make, UnitsMarkup.add_unit_operations]
  · simp [UnitsMarkup.make, UnitsMarkup.add_unit_operations,
      List.getElem?_map, hi]

/-- C10 witness: duplicate-id catalog, second occurrence gets its own
entry tagged by membership of its id. -/
theorem C10_one_button_per_unit_witness :
    (UnitsMarkup.make "r" "g" {1} [⟨1, "A"⟩, ⟨1, "B"⟩]).unit_buttons.length
        = 2
    ∧ (UnitsMarkup.make "r" "g" {1} [⟨1, "A"⟩, ⟨1, "B"⟩]).unit_buttons[1]?
        = some ⟨"r", "g", 1, "B", true⟩ := by
  have h := C10_one_button_per_unit "r" "g" {1} [⟨1, "A"⟩, ⟨1, "B"⟩] 1
    ⟨1, "B"⟩ rfl
  exact ⟨h.1, by rw [h.2]; decide⟩

/-- C3 counterexample: with `all_units = [Unit 1 "A"]` and
`enabled_unit_ids = .2.` no unit of `all_units` is enabled (1 is not a
member of the enabled set), yet the disable-all ("turn all off") button is
added — `any(enabled_unit_ids)` ranges over the raw configured set, not
over the units of the catalog, refuting the claim that the flag is true
exactly when at least one unit of `all_units` is enabled. -/
theorem C3_counterexample :
    (UnitsMarkup.make "r" "g" ({2} : Finset Int)
        [{ id := 1, name := "A" }]).has_disable_all_units_button = true
    ∧ (1 : Int) ∉ ({2} : Finset Int) := by decide

/-- C3 amended: the enable-all ("turn all on") button is present exactly
when some unit of `all_units` is disabled AND has a nonzero id; the
disable-all ("turn all off") button is present exactly when the raw
`enabled_unit_ids` set (stale ids included) holds a nonzero element —
`any` in Python is truthiness-existence, and the second flag never looks
at `all_units`. -/
theorem C3_amended_flags (rt rg : String) (e : Finset Int)
    (u : List models.Unit) :
    ((UnitsMarkup.make rt rg e u).has_enable_all_units_button = true
      ↔ ∃ unit ∈ u, unit.id ∉ e ∧ unit.id ≠ 0)
    ∧ ((UnitsMarkup.make rt rg e u).has_disable_all_units_button = true
      ↔ ∃ x ∈ e, x ≠ 0) := by
  constructor
  · simp only [UnitsMarkup.make, pyAnyInt, UnitsMarkup.disabled_unit_ids,
      UnitsMarkup.all_unit_ids, decide_eq_true_eq, Finset.mem_sdiff,
      List.mem_toFinset, List.mem_map]
    constructor
    · rintro ⟨x, ⟨⟨unit, hu, rfl⟩, hne⟩, hnz⟩
      exact ⟨unit, hu, hne, hnz⟩
    · rintro ⟨unit, hu, hne, hnz⟩
      exact ⟨unit.id, ⟨⟨unit, hu, rfl⟩, hne⟩, hnz⟩
  · simp [UnitsMarkup.make, pyAnyInt]

/-- C4 counterexample: `all_units = []`, `enabled_unit_ids = .5.` — a
purely stale configuration.  With the stale id the disable-all flag is
true; removing the stale ids (intersecting with `all_unit_ids`) turns it
false, refuting the claim that the run without stale ids is identical in
all flags. -/
theorem C4_counterexample :
    (UnitsMarkup.make "r" "g" ({5} : Finset Int)
        []).has_disable_all_units_button = true
    ∧ (UnitsMarkup.make "r" "g"
        (({5} : Finset Int) ∩ UnitsMarkup.all_unit_ids [])
        []).has_disable_all_units_button = false := by decide

/-- C4 amended: stale ids produce no entry (every button's id is an id of
`all_units`), and removing the stale ids — replacing `enabled_unit_ids` by
its intersection with `all_unit_ids` — leaves the entries and their tags,
`disabled_unit_ids`, and the enable-all flag unchanged; only the
disable-all flag can differ, because it is computed over the raw
`enabled_unit_ids`. -/
theorem C4_amended_stale_ids (rt rg : String) (e : Finset Int)
    (u : List models.Unit) (button : SwitchUnitStatusButton)
    (hb : button ∈ (UnitsMarkup.make rt rg e u).unit_buttons) :
    button.unit_id ∈ UnitsMarkup.all_unit_ids u
    ∧ (UnitsMarkup.make rt rg (e ∩ UnitsMarkup.all_unit_ids u)
          u).unit_buttons
        = (UnitsMarkup.make rt rg e u).unit_buttons
    ∧ UnitsMarkup.disabled_unit_ids u (e ∩ UnitsMarkup.all_unit_ids u)
        = UnitsMarkup.disabled_unit_ids u e
    ∧ (UnitsMarkup.make rt rg (e ∩ UnitsMarkup.all_unit_ids u)
          u).has_enable_all_units_button
        = (UnitsMarkup.make rt rg e u).has_enable_all_units_button := by
  have hsd : UnitsMarkup.disabled_unit_ids u (e ∩ UnitsMarkup.all_unit_ids u)
      = UnitsMarkup.disabled_unit_ids u e := by
    rw [UnitsMarkup.disabled_unit_ids, UnitsMarkup.disabled_unit_ids,
      Finset.inter_comm, Finset.sdiff_inter_self_left]
  refine ⟨?_, ?_, hsd, ?_⟩
  · simp only [UnitsMarkup.make, UnitsMarkup.add_unit_operations,
      List.mem_map] at hb
    obtain ⟨unit, hu, rfl⟩ := hb
    simp only [UnitsMarkup.all_unit_ids, List.mem_toFinset, List.mem_map]
    exact ⟨unit, hu, rfl⟩
  · simp only [UnitsMarkup.make, UnitsMarkup.add_unit_operations]
    refine List.map_congr_left ?_
    intro unit hu
    have hmem : unit.id ∈ UnitsMarkup.all_unit_ids u := by
      simp only [UnitsMarkup.all_unit_ids, List.mem_toFinset, List.mem_map]
      exact ⟨unit, hu, rfl⟩
    simp [Finset.mem_inter, hmem]
  · simp only [UnitsMarkup.make, hsd]

/-- C4 witness at a concrete input: catalog `[Unit 1 "A"]`, enabled set
`.1, 5.` with stale id 5. -/
theorem C4_amended_stale_ids_witness :
    UnitsMarkup.disabled_unit_ids [⟨1, "A"⟩]
        (({1, 5} : Finset Int) ∩ UnitsMarkup.all_unit_ids [⟨1, "A"⟩])
      = UnitsMarkup.disabled_unit_ids [⟨1, "A"⟩] {1, 5}
    ∧ (1 : Int) ∈ UnitsMarkup.all_unit_ids [⟨1, "A"⟩] := by
  have h := C4_amended_stale_ids "r" "g" {1, 5} [⟨1, "A"⟩]
    ⟨"r", "g", 1, "A", true⟩ (by decide)
  exact ⟨h.2.2.1, h.1⟩

/-- C5 counterexample: with an empty `all_units` catalog and
`enabled_unit_ids = .5.` the disable-all flag is true, refuting the claim
that both flags are false for every enabled set when the catalog is
empty. -/
theorem C5_counterexample :
    (UnitsMarkup.make "r" "g" ({5} : Finset Int)
        []).has_disable_all_units_button = true := by decide

/-- C5 amended: an empty `all_units` yields an empty partition and a
false enable-all flag, but the disable-all flag is true exactly when
`enabled_unit_ids` holds a nonzero element (it ignores the catalog). -/
theorem C5_amended_empty_catalog (rt rg : String) (e : Finset Int) :
    (UnitsMarkup.make rt rg e []).unit_buttons = []
    ∧ (UnitsMarkup.make rt rg e []).has_enable_all_units_button = false
    ∧ ((UnitsMarkup.make rt rg e []).has_disable_all_units_button = true
        ↔ ∃ x ∈ e, x ≠ 0) := by
  refine ⟨rfl, ?_, ?_⟩
  · simp [UnitsMarkup.make, pyAnyInt, UnitsMarkup.disabled_unit_ids,
      UnitsMarkup.all_unit_ids]
  · simp [UnitsMarkup.make, pyAnyInt]

/-- C1 counterexample: the remote answers a delivery-speed request with
status 500 and the JSON body of an empty array.  Whatever the element
model, `parse_obj_as(list[M], [])` succeeds as the empty list, so the
call returns a payload instead of failing with `DodoAPIError`: the
dispatcher never inspects the HTTP status. -/
theorem C1_counterexample :
    get_delivery_speed_statistics (fun _ => (none : Option Nat))
        (RawResponse.response 500 (some (Json.arr []))) = Except.ok []
    ∧ is_success 500 = false := ⟨rfl, rfl⟩

/-- C1 amended: a transport failure or a non-JSON body fails with
`DodoAPIError`; a JSON body the payload model rejects fails with the
uncaught `ValidationError`, not `DodoAPIError`; and whatever the status
code — success or not — a JSON body is deserialized, and the call returns
a payload exactly when full deserialization succeeds, returning precisely
that fully parsed value (all-or-nothing, never partially populated).
Every statistics operation (the five Shape-A ones and the five ad-hoc
ones) unfolds to this `request_then_parse` shape. -/
theorem C1_amended_error_translation (parse : Json → Option α)
    (status : Nat) (j : Json) :
    RequestByCookiesAndUnitIds.request parse RawResponse.transportError
        = Except.error PyError.DodoAPIError
    ∧ RequestByCookiesAndUnitIds.request parse
          (RawResponse.response status none)
        = Except.error PyError.DodoAPIError
    ∧ (parse j = none →
        RequestByCookiesAndUnitIds.request parse
            (RawResponse.response status (some j))
          = Except.error PyError.ValidationError)
    ∧ ∀ v, RequestByCookiesAndUnitIds.request parse
            (RawResponse.response status (some j)) = Except.ok v
          ↔ parse j = some v := by
  refine ⟨rfl, rfl, ?_, ?_⟩
  · intro h
    simp [RequestByCookiesAndUnitIds.request, request_then_parse,
      request_to_api, h]
  · intro v
    simp only [RequestByCookiesAndUnitIds.request, request_then_parse,
      request_to_api]
    cases hp : parse j <;> simp

/-- C1 witness: a 404 status with a well-formed body still yields the
payload, and a success status with a rejected body yields
`ValidationError`. -/
theorem C1_amended_error_translation_witness :
    RequestByCookiesAndUnitIds.request
        (parse_obj_as_list (fun _ => (none : Option Nat)))
        (RawResponse.response 404 (some (Json.arr [])))
        = Except.ok ([] : List Nat)
    ∧ RequestByCookiesAndUnitIds.request (fun _ => (none : Option Nat))
        (RawResponse.response 200 (some Json.null))
        = Except.error PyError.ValidationError := by
  have h₁ := C1_amended_error_translation
    (parse_obj_as_list (fun _ => (none : Option Nat))) 404 (Json.arr [])
  have h₂ := C1_amended_error_translation
    (fun _ => (none : Option Nat)) 200 Json.null
  exact ⟨(h₁.2.2.2 []).mpr rfl, h₂.2.2.1 rfl⟩

/-- C2 counterexample: a transport failure in `get_access_token` is not
caught anywhere in the function, so the raw transport exception
propagates — not `DatabaseAPIError` and not `NoTokenError`, contrary to
the claim that every transport failure maps to the `DatabaseAPIError`
taxonomy. -/
theorem C2_counterexample :
    get_access_token RawResponse.transportError
        = Except.error PyError.TransportError
    ∧ PyError.TransportError ≠ PyError.DatabaseAPIError
    ∧ PyError.TransportError ≠ PyError.NoTokenError := by
  exact ⟨rfl, by decide, by decide⟩

/-- C2 amended: when the auth/settings service responds, the taxonomy is
as claimed — 404 gives `NoTokenError` / `NoCookiesError`, a success
status returns exactly the stored token / cookie mapping, and any other
status gives `DatabaseAPIError`; but a transport failure propagates the
underlying transport exception uncaught instead of `DatabaseAPIError`. -/
theorem C2_amended_credential_taxonomy (status : Nat) (body : Option Json)
    (t : String) (fields : List (String × Json)) (j : Json) :
    (get_access_token (RawResponse.response 404 body)
        = Except.error PyError.NoTokenError
      ∧ get_cookies (RawResponse.response 404 body)
        = Except.error PyError.NoCookiesError)
    ∧ (is_success status = true →
        Json.getKey "access_token" fields = some (Json.str t) →
        get_access_token (RawResponse.response status
            (some (Json.obj fields)))
          = Except.ok (Json.str t))
    ∧ (is_success status = true →
        get_cookies (RawResponse.response status (some j)) = Except.ok j)
    ∧ (is_success status = false → status ≠ 404 →
        get_access_token (RawResponse.response status body)
            = Except.error PyError.DatabaseAPIError
        ∧ get_cookies (RawResponse.response status body)
            = Except.error PyError.DatabaseAPIError)
    ∧ get_access_token RawResponse.transportError
        = Except.error PyError.TransportError
    ∧ get_cookies RawResponse.transportError
        = Except.error PyError.TransportError := by
  refine ⟨⟨?_, ?_⟩, ?_, ?_, ?_, rfl, rfl⟩
  · simp [get_access_token, is_success]
  · simp [get_cookies, is_success]
  · intro hs hk
    simp [get_access_token, hs, hk]
  · intro hs
    simp [get_cookies, hs]
  · intro hs h4
    exact ⟨by simp [get_access_token, hs, h4], by simp [get_cookies, hs, h4]⟩

/-- C2 witness at concrete inputs: 404 gives the not-found error, a 200
response with the stored token returns it, a 500 response gives
`DatabaseAPIError`. -/
theorem C2_amended_credential_taxonomy_witness :
    get_access_token (RawResponse.response 404 none)
        = Except.error PyError.NoTokenError
    ∧ get_access_token (RawResponse.response 200
          (some (Json.obj [("access_token", Json.str "tok")])))
        = Except.ok (Json.str "tok")
    ∧ get_cookies (RawResponse.response 500 none)
        = Except.error PyError.DatabaseAPIError := by
  have h₁ := C2_amended_credential_taxonomy 200 none "tok"
    [("access_token", Json.str "tok")] Json.null
  have h₂ := C2_amended_credential_taxonomy 500 none "tok" [] Json.null
  exact ⟨h₁.1.1, h₁.2.1 rfl (by simp [Json.getKey]),
    (h₂.2.2.2.1 rfl (by decide)).2⟩

/-- C9: on a success status the credential resolvers step outside the
typed taxonomy — a non-JSON body raises `JSONDecodeError`, a JSON object
body without the `access_token` key raises `KeyError` in
`get_access_token`, and neither is one of `NoTokenError`,
`NoCookiesError`, `DatabaseAPIError`; `get_cookies` returns any success
JSON body as the cookie mapping with no shape validation. -/
theorem C9_untyped_success_path (status : Nat) (hs : is_success status = true)
    (fields : List (String × Json))
    (hk : Json.getKey "access_token" fields = none) (j : Json) :
    (get_access_token (RawResponse.response status none)
        = Except.error PyError.JSONDecodeError
      ∧ get_cookies (RawResponse.response status none)
        = Except.error PyError.JSONDecodeError)
    ∧ get_access_token (RawResponse.response status
          (some (Json.obj fields)))
        = Except.error PyError.KeyError
    ∧ get_cookies (RawResponse.response status (some j)) = Except.ok j
    ∧ (∀ e, e = PyError.JSONDecodeError ∨ e = PyError.KeyError →
        e ≠ PyError.NoTokenError ∧ e ≠ PyError.NoCookiesError
          ∧ e ≠ PyError.DatabaseAPIError) := by
  refine ⟨⟨?_, ?_⟩, ?_, ?_, ?_⟩
  · simp [get_access_token, hs]
  · simp [get_cookies, hs]
  · simp [get_access_token, hs, hk]
  · simp [get_cookies, hs]
  · rintro e (rfl | rfl) <;> exact ⟨by decide, by decide, by decide⟩

/-- C9 witness at status 200: empty-object body raises `KeyError`, and a
bare number comes back from `get_cookies` as the "cookie mapping". -/
theorem C9_untyped_success_path_witness :
    get_access_token (RawResponse.response 200 (some (Json.obj [])))
        = Except.error PyError.KeyError
    ∧ get_cookies (RawResponse.response 200 (some (Json.num 7)))
        = Except.ok (Json.num 7) := by
  have h := C9_untyped_success_path 200 rfl [] rfl (Json.num 7)
  exact ⟨h.2.1, h.2.2.1⟩

/-- C8: `get_orders_handover_time_statistics` issues GET
`/v2/statistics/production/handover-time` with query parameters exactly
the token, the unit UUIDs each hex-encoded, and the fixed filter
`sales_channels` equal to the one-element list `dine_in`;
`get_delivery_speed_statistics` issues GET `/v2/statistics/delivery/speed`
with exactly the token and the hex-encoded UUIDs and no sales-channel
parameter.  Hex encoding is faithful: for every UUID value below
`2 ^ 128`, the encoded string has 32 digits and denotes exactly that
value. -/
theorem C8_v2_request_construction (token : String) (unit_uuids : List Nat)
    (n : Nat) (hn : n < 16 ^ 32) :
    (get_orders_handover_time_statistics_request token unit_uuids).method
        = "GET"
    ∧ (get_orders_handover_time_statistics_request token unit_uuids).url
        = "/v2/statistics/production/handover-time"
    ∧ (get_orders_handover_time_statistics_request token unit_uuids).params
        = [("token", QueryValue.str token),
           ("unit_uuids", QueryValue.strList (unit_uuids.map uuidHex)),
           ("sales_channels", QueryValue.strList ["dine_in"])]
    ∧ (get_delivery_speed_statistics_request token unit_uuids).method
        = "GET"
    ∧ (get_delivery_speed_statistics_request token unit_uuids).url
        = "/v2/statistics/delivery/speed"
    ∧ (get_delivery_speed_statistics_request token unit_uuids).params
        = [("token", QueryValue.str token),
           ("unit_uuids", QueryValue.strList (unit_uuids.map uuidHex))]
    ∧ ((get_delivery_speed_statistics_request token unit_uuids).params.all
        fun p => p.1 != "sales_channels") = true
    ∧ (uuidHex n).length = 32
    ∧ hexValue (uuidHex n) = n := by
  refine ⟨rfl, rfl, rfl, rfl, rfl, rfl, rfl, ?_, hexValue_uuidHex n hn⟩
  show (hexDigitsOf 32 n).length = 32
  exact hexDigitsOf_length 32 n

/-- C8 witness: UUID value 255 encodes to 32 hex digits denoting 255. -/
theorem C8_v2_request_construction_witness :
    (uuidHex 255).length = 32 ∧ hexValue (uuidHex 255) = 255 := by
  have h := C8_v2_request_construction "t" [] 255 (by norm_num)
  exact ⟨h.2.2.2.2.2.2.2.1, h.2.2.2.2.2.2.2.2⟩
